import Mathlib

/-!
Shallow embedding of the paper-trading core of the `wealthincome` repository.

Part 1 models `src/core/trading_engine.py`: order/position/portfolio data
model, order validation, and order execution.  Python floats are modelled
as exact rationals (`ℚ`), Python `dict` as an association list with unique
keys, and Python `Optional` as `Option`.  `datetime` fields (`created_at`,
`updated_at`, `filled_at`) carry no claim-relevant information and are
omitted.  A Python expression that raises an exception is modelled by
`Option`/`none` at the function whose claim depends on it.
-/

inductive OrderSide
  | buy
  | sell
  deriving DecidableEq, Repr

inductive OrderType
  | market
  | limit
  | stop
  | stop_limit
  deriving DecidableEq, Repr

inductive OrderStatus
  | pending
  | filled
  | cancelled
  | rejected
  deriving DecidableEq, Repr

/-- Mirrors the `Position` dataclass (datetime fields omitted). -/
structure Position where
  symbol : String
  quantity : ℚ
  avg_price : ℚ
  current_price : ℚ := 0
  unrealized_pnl : ℚ := 0
  realized_pnl : ℚ := 0
  deriving DecidableEq, Repr

/-- Mirrors the `Order` dataclass (datetime fields omitted). -/
structure Order where
  id : String
  symbol : String
  side : OrderSide
  order_type : OrderType
  quantity : ℚ
  price : Option ℚ := none
  stop_price : Option ℚ := none
  status : OrderStatus := OrderStatus.pending
  filled_quantity : ℚ := 0
  filled_price : ℚ := 0
  deriving DecidableEq, Repr

/-- Transaction record appended by `_record_transaction` (timestamp omitted). -/
structure Transaction where
  id : String
  symbol : String
  side : OrderSide
  quantity : ℚ
  price : ℚ
  total : ℚ
  order_type : OrderType
  deriving DecidableEq, Repr

/-- Mirrors the `Portfolio` dataclass; the `positions` dict becomes an
association list whose keys are unique in every reachable state. -/
structure Portfolio where
  cash : ℚ := 100000
  positions : List (String × Position) := []
  orders : List Order := []
  transaction_history : List Transaction := []
  deriving DecidableEq, Repr

/-- Dict lookup `portfolio.positions.get(symbol)`. -/
def lookupPos (l : List (String × Position)) (symbol : String) : Option Position :=
  (l.find? (fun kv => kv.1 == symbol)).map (fun kv => kv.2)

/-- Dict assignment to an existing key (in-place mutation of the stored object). -/
def updatePos : List (String × Position) → String → Position → List (String × Position)
  | [], _, _ => []
  | (k, v) :: rest, s, p => if k = s then (s, p) :: rest else (k, v) :: updatePos rest s p

/-- Dict deletion `del portfolio.positions[symbol]`. -/
def removePos : List (String × Position) → String → List (String × Position)
  | [], _ => []
  | (k, v) :: rest, s => if k = s then rest else (k, v) :: removePos rest s

def Portfolio.getPos (port : Portfolio) (symbol : String) : Option Position :=
  lookupPos port.positions symbol

/-- The `Order(...)` construction performed at the top of `place_order`. -/
def mkOrder (id symbol : String) (side : OrderSide) (order_type : OrderType)
    (quantity : ℚ) (price stop_price : Option ℚ) : Order :=
  { id := id, symbol := symbol, side := side, order_type := order_type,
    quantity := quantity, price := price, stop_price := stop_price }

/-- Python `order.price or current_price`: `None` and `0.0` are both falsy,
so an explicit price of `0` falls back to the market price exactly like an
absent price. -/
def reference_price (price current_price : Option ℚ) : Option ℚ :=
  match price with
  | some p => if p = 0 then current_price else some p
  | none => current_price

/-- Mirrors `TradingEngine._validate_order`.  `current_price` is the value
`_get_current_price(order.symbol)` would return (`none` when unavailable).
Result `none` models the `TypeError` raised by `order.quantity * None`
when a BUY order has no usable reference price; `some b` is the boolean
the Python function returns. -/
def validate_order (port : Portfolio) (o : Order) (current_price : Option ℚ) : Option Bool :=
  match o.side with
  | OrderSide.buy =>
    match reference_price o.price current_price with
    | none => none
    | some rp => some (decide (o.quantity * rp ≤ port.cash))
  | OrderSide.sell =>
    match port.getPos o.symbol with
    | none => some false
    | some position => some (decide (o.quantity ≤ position.quantity))

/-- Mirrors `TradingEngine._execute_buy_order`. -/
def execute_buy_order (port : Portfolio) (o : Order) (price : ℚ) : Portfolio :=
  let total_cost := o.quantity * price
  let cash1 := port.cash - total_cost
  match port.getPos o.symbol with
  | some position =>
    let total_quantity := position.quantity + o.quantity
    let total_cost_basis := position.quantity * position.avg_price + o.quantity * price
    let position1 : Position :=
      { position with
        avg_price := total_cost_basis / total_quantity,
        quantity := total_quantity,
        current_price := price }
    { port with cash := cash1, positions := updatePos port.positions o.symbol position1 }
  | none =>
    { port with
      cash := cash1,
      positions := port.positions ++
        [(o.symbol, { symbol := o.symbol, quantity := o.quantity,
                      avg_price := price, current_price := price })] }

/-- Mirrors `TradingEngine._execute_sell_order`.  The Python code indexes
`positions[order.symbol]` directly; it is only ever called after a SELL
passed validation, so the position exists.  The impossible missing-key
case leaves the portfolio unchanged. -/
def execute_sell_order (port : Portfolio) (o : Order) (price : ℚ) : Portfolio :=
  match port.getPos o.symbol with
  | none => port
  | some position =>
    let realized := (price - position.avg_price) * o.quantity
    let position1 : Position :=
      { position with
        realized_pnl := position.realized_pnl + realized,
        quantity := position.quantity - o.quantity,
        current_price := price }
    let cash1 := port.cash + o.quantity * price
    if position1.quantity ≤ 0 then
      { port with cash := cash1, positions := removePos port.positions o.symbol }
    else
      { port with cash := cash1, positions := updatePos port.positions o.symbol position1 }

/-- Mirrors `TradingEngine._record_transaction`. -/
def record_transaction (port : Portfolio) (o : Order) (price : ℚ) : Portfolio :=
  { port with transaction_history := port.transaction_history ++
      [{ id := o.id, symbol := o.symbol, side := o.side, quantity := o.quantity,
         price := price, total := o.quantity * price, order_type := o.order_type }] }

/-- Mirrors `TradingEngine._execute_order`.  Python rejects when
`not current_price`, i.e. when the price is `None` or exactly `0.0`.
Returns the updated portfolio and the mutated order object. -/
def execute_order (port : Portfolio) (o : Order) (current_price : Option ℚ) :
    Portfolio × Order :=
  match current_price with
  | none => (port, { o with status := OrderStatus.rejected })
  | some cp =>
    if cp = 0 then (port, { o with status := OrderStatus.rejected })
    else
      let execution_price := cp
      let port1 :=
        match o.side with
        | OrderSide.buy => execute_buy_order port o execution_price
        | OrderSide.sell => execute_sell_order port o execution_price
      let o1 : Order :=
        { o with status := OrderStatus.filled, filled_quantity := o.quantity,
                 filled_price := execution_price }
      (record_transaction port1 o1 execution_price, o1)

/-- Mirrors `TradingEngine.place_order`.  `current_price` stands for the
value `_get_current_price(symbol)` returns during this call (the engine
reads it during validation for market-priced BUYs and again at execution;
a single parameter models a stable quote).  Result `none` is the
`TypeError` escaping from validation; otherwise the new portfolio and the
returned order id.  Python appends the order object before executing and
then mutates it in place; appending the final order object yields the
identical end state. -/
def place_order (port : Portfolio) (order_id symbol : String) (side : OrderSide)
    (quantity : ℚ) (order_type : OrderType) (price stop_price : Option ℚ)
    (current_price : Option ℚ) : Option (Portfolio × String) :=
  let order := mkOrder order_id symbol side order_type quantity price stop_price
  match validate_order port order current_price with
  | none => none
  | some false => some (port, order_id)
  | some true =>
    if order_type = OrderType.market then
      let pe := execute_order port order current_price
      some ({ pe.1 with orders := pe.1.orders ++ [pe.2] }, order_id)
    else
      some ({ port with orders := port.orders ++ [order] }, order_id)

/-- Helper of `cancel_order`: walk the order list, flip the first PENDING
order with the given id to CANCELLED, report whether one was found. -/
def cancel_orders_list : List Order → String → List Order × Bool
  | [], _ => ([], false)
  | o :: rest, order_id =>
    if o.id = order_id ∧ o.status = OrderStatus.pending then
      ({ o with status := OrderStatus.cancelled } :: rest, true)
    else
      let r := cancel_orders_list rest order_id
      (o :: r.1, r.2)

/-- Mirrors `TradingEngine.cancel_order`. -/
def cancel_order (port : Portfolio) (order_id : String) : Portfolio × Bool :=
  let r := cancel_orders_list port.orders order_id
  ({ port with orders := r.1 }, r.2)

/-- Mirrors `TradingEngine.get_order`. -/
def get_order (port : Portfolio) (order_id : String) : Option Order :=
  port.orders.find? (fun o => o.id == order_id)

/-- Mirrors `TradingEngine.get_orders`.  The Python method finally sorts by
`created_at` descending; timestamps are omitted here, so the filtered list
is returned in portfolio order (membership is unaffected). -/
def get_orders (port : Portfolio) (symbol : Option String) (status : Option OrderStatus) :
    List Order :=
  let orders :=
    match symbol with
    | some s => port.orders.filter (fun o => o.symbol == s)
    | none => port.orders
  match status with
  | some st => orders.filter (fun o => o.status == st)
  | none => orders

/-!
Part 2 models `src/wealthincome/confidence_scoring.py` (`ConfidenceScorer`).
Python dict inputs with `.get(key, default)` access become structures of
`Option` fields read through `Option.getD`; absent sub-dicts (`technicals`,
`scores`, `info`, `news_sentiment`) are `Option` structures defaulting to
the empty record, exactly like `analysis.get('technicals', {})`.
-/

structure Technicals where
  sma_20 : Option ℚ := none
  sma_50 : Option ℚ := none
  sma_200 : Option ℚ := none
  rsi : Option ℚ := none
  support : Option ℚ := none
  resistance : Option ℚ := none
  deriving DecidableEq, Repr

structure ScoresBundle where
  swing_score : Option ℚ := none
  ai_score : Option ℚ := none
  deriving DecidableEq, Repr

structure InfoBundle where
  forwardPE : Option ℚ := none
  trailingPE : Option ℚ := none
  revenueGrowth : Option ℚ := none
  profitMargins : Option ℚ := none
  targetMeanPrice : Option ℚ := none
  deriving DecidableEq, Repr

structure NewsSentiment where
  label : Option String := none
  score : Option ℚ := none
  deriving DecidableEq, Repr

/-- The `analysis` dict handed to `calculate_confidence_score`, restricted
to the fields the scorer reads. -/
structure Analysis where
  technicals : Option Technicals := none
  scores : Option ScoresBundle := none
  rvol : Option ℚ := none
  price : Option ℚ := none
  info : Option InfoBundle := none
  news_sentiment : Option NewsSentiment := none
  sector_performance : Option ℚ := none
  market_trend : Option String := none
  beta : Option ℚ := none
  volatility : Option ℚ := none
  volume : Option ℚ := none
  deriving DecidableEq, Repr

/-- The `self.future_trends` table of `ConfidenceScorer.__init__`. -/
def future_trends : List (String × List String) :=
  [("quantum_computing", ["IONQ", "RGTI", "QUBT", "IBM", "GOOGL", "MSFT"]),
   ("ai_revolution", ["NVDA", "AMD", "MSFT", "GOOGL", "META", "PLTR", "AI", "UPST"]),
   ("clean_energy", ["ENPH", "SEDG", "RUN", "PLUG", "BLDP", "FCEL", "BE"]),
   ("space_economy", ["RKLB", "ASTR", "SPCE", "LMT", "NOC", "BA"]),
   ("biotech_breakthrough", ["MRNA", "BNTX", "CRSP", "EDIT", "NTLA", "BEAM"]),
   ("metaverse", ["META", "RBLX", "U", "NVDA", "MSFT", "AAPL"]),
   ("cybersecurity", ["CRWD", "ZS", "NET", "S", "PANW", "FTNT"]),
   ("fintech", ["SQ", "PYPL", "SOFI", "AFRM", "UPST", "COIN"])]

/-- Mirrors `ConfidenceScorer._calculate_technical_confidence` (the numeric
score; the textual `reason` strings are presentation only and omitted). -/
def technical_confidence (a : Analysis) : ℚ :=
  let tech := a.technicals.getD {}
  let scores := a.scores.getD {}
  let s1 : ℚ :=
    if tech.sma_20.getD 0 > tech.sma_50.getD 0 ∧ tech.sma_50.getD 0 > tech.sma_200.getD 0
    then 20
    else if tech.sma_20.getD 0 > tech.sma_50.getD 0 then 10 else 0
  let rsi := tech.rsi.getD 50
  let s2 : ℚ := if 40 < rsi ∧ rsi < 70 then 15 else if 30 < rsi ∧ rsi < 40 then 10 else 0
  let s3 : ℚ := if a.rvol.getD 0 > 3 / 2 then 15 else if a.rvol.getD 0 > 1 then 8 else 0
  let price := a.price.getD 0
  let support := tech.support.getD 0
  let s4 : ℚ := if support > 0 ∧ price > support * (102 / 100) then 10 else 0
  let s5 : ℚ := if scores.swing_score.getD 0 > 70 then 10 else 0
  let s6 : ℚ := if scores.ai_score.getD 0 > 80 then 20 else 0
  min (s1 + s2 + s3 + s4 + s5 + s6) 100

/-- Mirrors `ConfidenceScorer._calculate_fundamental_confidence`.  In the
analyst-upside branch the Python code computes `target_price/current_price`
inside the reason string; with `current_price = 0` this raises
`ZeroDivisionError`, modelled as `none`. -/
def fundamental_confidence (a : Analysis) : Option ℚ :=
  let info := a.info.getD {}
  let pe := info.forwardPE.getD (info.trailingPE.getD 0)
  let s1 : ℚ := if 0 < pe ∧ pe < 25 then 10 else if 25 ≤ pe ∧ pe < 40 then 5 else 0
  let revenue_growth := info.revenueGrowth.getD 0
  let s2 : ℚ := if revenue_growth > 20 / 100 then 15 else if revenue_growth > 10 / 100 then 8 else 0
  let profit_margin := info.profitMargins.getD 0
  let s3 : ℚ := if profit_margin > 20 / 100 then 15 else if profit_margin > 10 / 100 then 8 else 0
  let target_price := info.targetMeanPrice.getD 0
  let current_price := a.price.getD 0
  if target_price > current_price * (120 / 100) then
    if current_price = 0 then none
    else some (min (50 + s1 + s2 + s3 + 10) 100)
  else some (min (50 + s1 + s2 + s3) 100)

/-- Mirrors `ConfidenceScorer._calculate_sentiment_confidence`. -/
def sentiment_confidence (a : Analysis) : ℚ :=
  let news := a.news_sentiment.getD {}
  let s1 : ℚ :=
    if news.label = some "Positive" then 30
    else if news.label = some "Negative" then -20 else 0
  let sentiment_score := news.score.getD 0
  let s2 : ℚ := if sentiment_score > 4 / 5 then 20 else if sentiment_score > 3 / 5 then 10 else 0
  max 0 (min (50 + s1 + s2) 100)

/-- Python `str.upper()` on ticker symbols, modelled character-wise with the
ASCII case mapping (`Char.toUpper`); ticker strings are ASCII. -/
def pyUpper (s : String) : String := String.mk (s.data.map Char.toUpper)

/-- Mirrors `ConfidenceScorer._calculate_trend_alignment`. -/
def trend_alignment (ticker : String) (a : Analysis) : ℚ :=
  let aligned_trends := future_trends.filter (fun p => p.2.contains (pyUpper ticker))
  let s1 : ℚ :=
    if aligned_trends.length > 0
    then 40 + (if aligned_trends.length > 1 then 20 else 0)
    else 0
  let s2 : ℚ := if a.sector_performance.getD 0 > 0 then 20 else 0
  let market_trend := a.market_trend.getD "neutral"
  let s3 : ℚ :=
    if market_trend = "bullish" ∧ a.beta.getD 1 > 6 / 5 then 20
    else if market_trend = "bearish" ∧ a.beta.getD 1 < 4 / 5 then 20 else 0
  min (s1 + s2 + s3) 100

/-- Mirrors `ConfidenceScorer._get_confidence_level` with the thresholds
`ultra_high = 85`, `high = 70`, `medium = 50` from `__init__`. -/
def confidence_level (score : ℚ) : String :=
  if score ≥ 85 then "ULTRA HIGH"
  else if score ≥ 70 then "HIGH"
  else if score ≥ 50 then "MEDIUM"
  else "LOW"

/-- Python `round(x, 1)`.  Exact-rational model of decimal rounding to one
place; CPython resolves exact ties to the even digit while `round` here
resolves them upward — no claim depends on tie behaviour. -/
def round1 (x : ℚ) : ℚ := ((round (x * 10) : ℤ) : ℚ) / 10

/-- The claim-relevant fields of the dict returned by
`calculate_confidence_score` (explanation/recommendation strings and the
timestamp are presentation only and omitted). -/
structure ConfidenceResult where
  total_score : ℚ
  confidence_level : String
  technical : ℚ
  fundamental : ℚ
  sentiment : ℚ
  trend : ℚ
  deriving DecidableEq, Repr

/-- Mirrors `ConfidenceScorer.calculate_confidence_score`: the four
component scores, the weighted total (weights 0.40/0.20/0.20/0.20), the
level derived from the unrounded total, and the reported total rounded to
one decimal.  `none` propagates the `ZeroDivisionError` that the
fundamental dimension can raise. -/
def calculate_confidence_score (ticker : String) (a : Analysis) : Option ConfidenceResult :=
  let tech_score := technical_confidence a
  match fundamental_confidence a with
  | none => none
  | some fundamental_score =>
    let sentiment_score := sentiment_confidence a
    let trend_score := trend_alignment ticker a
    let total_score :=
      tech_score * (40 / 100) + fundamental_score * (20 / 100) +
      sentiment_score * (20 / 100) + trend_score * (20 / 100)
    some { total_score := round1 total_score,
           confidence_level := confidence_level total_score,
           technical := tech_score,
           fundamental := fundamental_score,
           sentiment := sentiment_score,
           trend := trend_score }

/-- The dict returned by `get_position_sizing_recommendation` (the
`sizing_note` string included for fidelity). -/
structure SizingResult where
  base_risk : ℚ
  adjusted_risk : ℚ
  multiplier : ℚ
  max_position_percent : ℚ
  sizing_note : String
  confidence_level : String
  deriving DecidableEq, Repr

/-- Mirrors `ConfidenceScorer.get_position_sizing_recommendation`. -/
def get_position_sizing_recommendation (confidence_score account_size risk_per_trade : ℚ) :
    SizingResult :=
  let base_risk := account_size * risk_per_trade
  let multiplier : ℚ :=
    if confidence_score ≥ 85 then 3 / 2
    else if confidence_score ≥ 70 then 1
    else if confidence_score ≥ 50 then 1 / 2
    else 1 / 4
  let sizing_note : String :=
    if confidence_score ≥ 85 then "Increased size due to exceptional setup"
    else if confidence_score ≥ 70 then "Standard position size"
    else if confidence_score ≥ 50 then "Reduced size due to mixed signals"
    else "Minimal size or consider passing"
  let adjusted_risk := base_risk * multiplier
  { base_risk := base_risk,
    adjusted_risk := adjusted_risk,
    multiplier := multiplier,
    max_position_percent := adjusted_risk / account_size * 100,
    sizing_note := sizing_note,
    confidence_level := confidence_level confidence_score }

/-!
Part 3: helper lemmas about the positions dictionary and buy/sell fills.
-/

lemma lookupPos_cons (k s : String) (v : Position) (rest : List (String × Position)) :
    lookupPos ((k, v) :: rest) s = if k = s then some v else lookupPos rest s := by
  by_cases hk : k = s <;> simp [lookupPos, List.find?_cons, hk]

lemma lookupPos_updatePos {l : List (String × Position)} {s : String} {q : Position}
    (h : lookupPos l s = some q) (p : Position) :
    lookupPos (updatePos l s p) s = some p := by
  induction l with
  | nil => simp [lookupPos] at h
  | cons kv rest ih =>
    obtain ⟨k, v⟩ := kv
    by_cases hk : k = s
    · simp [updatePos, hk, lookupPos_cons]
    · rw [lookupPos_cons, if_neg hk] at h
      simp only [updatePos, if_neg hk]
      rw [lookupPos_cons, if_neg hk]
      exact ih h

lemma lookupPos_append_right {l : List (String × Position)} {s : String}
    (h : lookupPos l s = none) (p : Position) :
    lookupPos (l ++ [(s, p)]) s = some p := by
  induction l with
  | nil => simp [lookupPos]
  | cons kv rest ih =>
    obtain ⟨k, v⟩ := kv
    by_cases hk : k = s
    · rw [lookupPos_cons, if_pos hk] at h
      exact absurd h (by simp)
    · rw [lookupPos_cons, if_neg hk] at h
      rw [List.cons_append, lookupPos_cons, if_neg hk]
      exact ih h

/-- A BUY fill on an existing position: the updated position record. -/
lemma execute_buy_order_getPos_some {port : Portfolio} {o : Order} {pos : Position}
    (price : ℚ) (h : port.getPos o.symbol = some pos) :
    (execute_buy_order port o price).getPos o.symbol =
      some { pos with
        avg_price := (pos.quantity * pos.avg_price + o.quantity * price) /
          (pos.quantity + o.quantity),
        quantity := pos.quantity + o.quantity,
        current_price := price } := by
  unfold execute_buy_order
  unfold Portfolio.getPos at h
  simp only [Portfolio.getPos, h]
  exact lookupPos_updatePos h _

/-- A BUY fill with no existing position: a fresh position record. -/
lemma execute_buy_order_getPos_none {port : Portfolio} {o : Order}
    (price : ℚ) (h : port.getPos o.symbol = none) :
    (execute_buy_order port o price).getPos o.symbol =
      some { symbol := o.symbol, quantity := o.quantity,
             avg_price := price, current_price := price } := by
  unfold execute_buy_order
  unfold Portfolio.getPos at h
  simp only [Portfolio.getPos, h]
  exact lookupPos_append_right h _

/-- A BUY fill of `quantity` at `price`, as `_execute_order` issues it. -/
def mkBuyFill (symbol : String) (quantity : ℚ) : Order :=
  mkOrder "" symbol OrderSide.buy OrderType.market quantity none none

/-- A sequence of BUY fills for one symbol applied to the ledger. -/
def apply_buys (port : Portfolio) (symbol : String) (buys : List (ℚ × ℚ)) : Portfolio :=
  buys.foldl (fun pt b => execute_buy_order pt (mkBuyFill symbol b.1) b.2) port

/-- Total quantity bought over a list of (quantity, price) fills. -/
def sumQ (buys : List (ℚ × ℚ)) : ℚ := (buys.map (fun b => b.1)).sum

/-- Total cost (quantity times price summed) over a list of fills. -/
def sumQP (buys : List (ℚ × ℚ)) : ℚ := (buys.map (fun b => b.1 * b.2)).sum

lemma sumQ_cons (b : ℚ × ℚ) (rest : List (ℚ × ℚ)) : sumQ (b :: rest) = b.1 + sumQ rest := by
  simp [sumQ]

lemma sumQP_cons (b : ℚ × ℚ) (rest : List (ℚ × ℚ)) :
    sumQP (b :: rest) = b.1 * b.2 + sumQP rest := by
  simp [sumQP]

lemma apply_buys_invariant (s : String) (buys : List (ℚ × ℚ)) :
    ∀ (port : Portfolio) (pos : Position),
      port.getPos s = some pos → 0 < pos.quantity → (∀ b ∈ buys, 0 < b.1) →
      ∃ pos1, (apply_buys port s buys).getPos s = some pos1 ∧
        0 < pos1.quantity ∧
        pos1.quantity = pos.quantity + sumQ buys ∧
        pos1.quantity * pos1.avg_price = pos.quantity * pos.avg_price + sumQP buys := by
  induction buys with
  | nil =>
    intro port pos h hq _
    refine ⟨pos, ?_, hq, by simp [sumQ], by simp [sumQP]⟩
    simpa [apply_buys] using h
  | cons b rest ih =>
    intro port pos h hq hall
    have hb : 0 < b.1 := hall b (List.mem_cons_self b rest)
    have hall1 : ∀ x ∈ rest, 0 < x.1 := fun x hx => hall x (List.mem_cons_of_mem b hx)
    have hne : pos.quantity + b.1 ≠ 0 := ne_of_gt (by linarith)
    have hstep : (execute_buy_order port (mkBuyFill s b.1) b.2).getPos s =
        some { pos with
          avg_price := (pos.quantity * pos.avg_price + b.1 * b.2) / (pos.quantity + b.1),
          quantity := pos.quantity + b.1,
          current_price := b.2 } := by
      have := execute_buy_order_getPos_some (o := mkBuyFill s b.1) b.2 h
      simpa [mkBuyFill, mkOrder] using this
    obtain ⟨pos2, h2, hq2, hsum2, hcb2⟩ :=
      ih (execute_buy_order port (mkBuyFill s b.1) b.2)
        { pos with
          avg_price := (pos.quantity * pos.avg_price + b.1 * b.2) / (pos.quantity + b.1),
          quantity := pos.quantity + b.1,
          current_price := b.2 }
        hstep (by show (0:ℚ) < pos.quantity + b.1; linarith) hall1
    simp only at hsum2 hcb2
    have hmul : (pos.quantity + b.1) *
        ((pos.quantity * pos.avg_price + b.1 * b.2) / (pos.quantity + b.1)) =
        pos.quantity * pos.avg_price + b.1 * b.2 := by
      rw [mul_comm]
      exact div_mul_cancel₀ _ hne
    refine ⟨pos2, ?_, hq2, ?_, ?_⟩
    · have hfold : apply_buys port s (b :: rest) =
          apply_buys (execute_buy_order port (mkBuyFill s b.1) b.2) s rest := by
        simp [apply_buys]
      rw [hfold]
      exact h2
    · rw [sumQ_cons, hsum2]; ring
    · rw [sumQP_cons, hcb2, hmul]; ring

/-- C2: after any sequence of BUY fills only, a position's average cost is
the volume-weighted average price of those buys, recomputed on each buy as
`(old_quantity*old_avg + quantity*fill_price)/(old_quantity+quantity)`;
and a SELL fill leaves `avg_price` unchanged, decreasing the quantity and
adding `(fill_price - average_cost) * sold_quantity` to `realized_pnl`
(the stated record keeps `avg_price` at its previous value). -/
theorem C2_average_cost_invariant :
    (∀ (port : Portfolio) (s : String) (buys : List (ℚ × ℚ)),
      port.getPos s = none → buys ≠ [] → (∀ b ∈ buys, 0 < b.1) →
      ∃ pos, (apply_buys port s buys).getPos s = some pos ∧
        pos.quantity = sumQ buys ∧ pos.avg_price = sumQP buys / sumQ buys) ∧
    (∀ (port : Portfolio) (o : Order) (pos : Position) (price : ℚ),
      port.getPos o.symbol = some pos → 0 < pos.quantity - o.quantity →
      (execute_sell_order port o price).getPos o.symbol =
        some { pos with
          realized_pnl := pos.realized_pnl + (price - pos.avg_price) * o.quantity,
          quantity := pos.quantity - o.quantity,
          current_price := price }) := by
  constructor
  · intro port s buys h hne hall
    match buys with
    | [] => exact absurd rfl hne
    | b :: rest =>
      have hb : 0 < b.1 := hall b (List.mem_cons_self b rest)
      have hall1 : ∀ x ∈ rest, 0 < x.1 := fun x hx => hall x (List.mem_cons_of_mem b hx)
      have hstart : (execute_buy_order port (mkBuyFill s b.1) b.2).getPos s =
          some { symbol := s, quantity := b.1, avg_price := b.2, current_price := b.2 } := by
        have := execute_buy_order_getPos_none (o := mkBuyFill s b.1) b.2 h
        simpa [mkBuyFill, mkOrder] using this
      obtain ⟨pos2, h2, hq2, hsum2, hcb2⟩ :=
        apply_buys_invariant s rest (execute_buy_order port (mkBuyFill s b.1) b.2)
          { symbol := s, quantity := b.1, avg_price := b.2, current_price := b.2 }
          hstart hb hall1
      simp only at hsum2 hcb2
      have hqeq : pos2.quantity = sumQ (b :: rest) := by rw [sumQ_cons, hsum2]
      have hCB : pos2.quantity * pos2.avg_price = sumQP (b :: rest) := by
        rw [sumQP_cons, hcb2]
      refine ⟨pos2, ?_, hqeq, ?_⟩
      · have hfold : apply_buys port s (b :: rest) =
            apply_buys (execute_buy_order port (mkBuyFill s b.1) b.2) s rest := by
          simp [apply_buys]
        rw [hfold]
        exact h2
      · rw [eq_div_iff (by rw [← hqeq]; exact ne_of_gt hq2), ← hqeq, mul_comm]
        exact hCB
  · intro port o pos price h hrem
    unfold execute_sell_order
    simp only [h]
    rw [if_neg (not_le.mpr hrem)]
    exact lookupPos_updatePos h _

/-- Witness for C2 at concrete inputs: two buys of 10 shares at 50 then 60
give quantity 20 and average cost 55; selling 4 shares at 70 from a
10-share position with average cost 50 leaves average cost 50, quantity 6,
and adds 80 of realized profit. -/
theorem C2_witness :
    (∃ pos, (apply_buys {} "AAPL" [(10, 50), (10, 60)]).getPos "AAPL" = some pos ∧
      pos.quantity = sumQ [(10, 50), (10, 60)] ∧
      pos.avg_price = sumQP [(10, 50), (10, 60)] / sumQ [(10, 50), (10, 60)]) ∧
    (execute_sell_order
        { cash := 500,
          positions := [("AAPL", { symbol := "AAPL", quantity := 10, avg_price := 50 })] }
        (mkOrder "s1" "AAPL" OrderSide.sell OrderType.market 4 none none) 70).getPos "AAPL" =
      some { symbol := "AAPL", quantity := 6, avg_price := 50,
             current_price := 70, unrealized_pnl := 0, realized_pnl := 80 } := by
  constructor
  · exact C2_average_cost_invariant.1 {} "AAPL" [(10, 50), (10, 60)]
      (by simp [Portfolio.getPos, lookupPos]) (by simp) (by norm_num)
  · have h := C2_average_cost_invariant.2
      { cash := 500,
        positions := [("AAPL", { symbol := "AAPL", quantity := 10, avg_price := 50 })] }
      (mkOrder "s1" "AAPL" OrderSide.sell OrderType.market 4 none none)
      { symbol := "AAPL", quantity := 10, avg_price := 50 } 70
      (by simp [Portfolio.getPos, lookupPos, mkOrder]) (by norm_num [mkOrder])
    refine h.trans ?_
    norm_num [mkOrder]

/-- A submission that fails validation returns the fresh order id and
leaves the portfolio untouched (the locally-built REJECTED order object is
discarded, not recorded). -/
lemma place_order_rejected (port : Portfolio) (oid s : String) (side : OrderSide) (q : ℚ)
    (ot : OrderType) (p sp cp : Option ℚ)
    (h : validate_order port (mkOrder oid s side ot q p sp) cp = some false) :
    place_order port oid s side q ot p sp cp = some (port, oid) := by
  simp only [place_order, h]

/-- C1: the no-negative-state invariant fails.  A BUY validated against its
explicit price of 10 but filled at the market price of 100 leaves cash at
-500 on a successfully FILLED order, and a BUY of quantity 0 creates a
position with quantity 0 in the positions map. -/
theorem C1_invariant_violations :
    ((place_order { cash := 500 } "o1" "AAPL" OrderSide.buy 10 OrderType.market
        (some 10) none (some 100)).map (fun r => r.1.cash)) = some (-500) ∧
    ((place_order { cash := 500 } "o1" "AAPL" OrderSide.buy 10 OrderType.market
        (some 10) none (some 100)).bind (fun r => (get_order r.1 "o1").map Order.status)) =
      some OrderStatus.filled ∧
    ((place_order { cash := 500 } "o2" "TSLA" OrderSide.buy 0 OrderType.market
        none none (some 50)).bind (fun r => (r.1.getPos "TSLA").map Position.quantity)) =
      some 0 := by
  refine ⟨?_, ?_, ?_⟩ <;>
  · simp [place_order, mkOrder, validate_order, reference_price, execute_order,
      execute_buy_order, record_transaction, get_order, Portfolio.getPos, lookupPos]
    try norm_num

/-- C3 counterexample: validation accepts a BUY with requested quantity 0
(there is no INVALID_QUANTITY rejection anywhere), and a BUY with no
explicit price and no available market price makes validation itself raise
a TypeError (modelled `none`) instead of producing a NO_PRICE_AVAILABLE
rejection; validation returns a bare boolean, never a reason code. -/
theorem C3_counterexample :
    validate_order { cash := 1000 }
      (mkOrder "c1" "AAPL" OrderSide.buy OrderType.market 0 (some 10) none) (some 100) =
      some true ∧
    validate_order { cash := 1000 }
      (mkOrder "c2" "AAPL" OrderSide.buy OrderType.market 1 none none) none = none := by
  constructor <;>
  · simp [validate_order, mkOrder, reference_price]
    try norm_num

/-- C3 amended: validation returns a bare boolean with no reason code; an
order failing validation is marked REJECTED only on the discarded local
object — the caller just gets the fresh id back and the portfolio is
unchanged; there is no INVALID_QUANTITY check at all; a validated market
order whose symbol has no available price at execution is appended and
marked REJECTED rather than crashing (for a BUY the missing price already
raises inside validation, per the counterexample). -/
theorem C3_amended_rejection_surface :
    (∀ (port : Portfolio) (oid s : String) (side : OrderSide) (q : ℚ)
        (ot : OrderType) (p sp cp : Option ℚ),
      validate_order port (mkOrder oid s side ot q p sp) cp = some false →
      place_order port oid s side q ot p sp cp = some (port, oid)) ∧
    (∀ (port : Portfolio) (oid s : String) (q : ℚ) (pos : Position),
      port.getPos s = some pos → q ≤ pos.quantity →
      place_order port oid s OrderSide.sell q OrderType.market none none none =
        some ({ port with orders := port.orders ++
          [{ mkOrder oid s OrderSide.sell OrderType.market q none none with
             status := OrderStatus.rejected }] }, oid)) := by
  constructor
  · intro port oid s side q ot p sp cp h
    exact place_order_rejected port oid s side q ot p sp cp h
  · intro port oid s q pos hpos hq
    have hval : validate_order port
        (mkOrder oid s OrderSide.sell OrderType.market q none none) none = some true := by
      simp only [validate_order, mkOrder]
      simp [hpos, hq]
    simp [place_order, hval, execute_order]

/-- Witness for C3 amended: a BUY that fails the cash check returns only
the id with the portfolio unchanged, and a validated SELL with no market
price is recorded as a REJECTED order. -/
theorem C3_witness :
    place_order { cash := 0 } "w1" "AAPL" OrderSide.buy 10 OrderType.market
      (some 10) none (some 10) = some ({ cash := 0 }, "w1") ∧
    place_order
      { cash := 500,
        positions := [("MSFT", { symbol := "MSFT", quantity := 5, avg_price := 50 })] }
      "w2" "MSFT" OrderSide.sell 5 OrderType.market none none none =
      some ({ cash := 500,
              positions := [("MSFT", { symbol := "MSFT", quantity := 5, avg_price := 50 })],
              orders := [{ mkOrder "w2" "MSFT" OrderSide.sell OrderType.market 5 none none with
                           status := OrderStatus.rejected }] }, "w2") := by
  constructor
  · exact C3_amended_rejection_surface.1 { cash := 0 } "w1" "AAPL" OrderSide.buy 10
      OrderType.market (some 10) none (some 10)
      (by simp [validate_order, mkOrder, reference_price]; try norm_num)
  · exact C3_amended_rejection_surface.2
      { cash := 500,
        positions := [("MSFT", { symbol := "MSFT", quantity := 5, avg_price := 50 })] }
      "w2" "MSFT" 5 { symbol := "MSFT", quantity := 5, avg_price := 50 }
      (by simp [Portfolio.getPos, lookupPos]) (by norm_num)

/-- C5 counterexample: with an explicit limit price of 0 the claim's
acceptance rule (quantity times explicit price, 0, at most cash) would
accept, but Python's `order.price or ...` treats 0.0 as falsy, so the code
validates against the market price 100 and rejects the order. -/
theorem C5_counterexample :
    validate_order { cash := 500 }
      (mkOrder "x1" "AAPL" OrderSide.buy OrderType.market 10 (some 0) none) (some 100) =
      some false ∧
    (10 : ℚ) * 0 ≤ 500 := by
  constructor
  · simp [validate_order, mkOrder, reference_price]
    try norm_num
  · norm_num

/-- C5 amended: a BUY is accepted iff quantity times the reference price is
at most cash, where the reference price is the explicit price when set and
nonzero, falling back to the market price when the explicit price is
absent or 0; a SELL is accepted iff an open position holds at least the
requested quantity; a rejected submission returns only the fresh id and
leaves the portfolio entirely unchanged. -/
theorem C5_amended_validation :
    (∀ (port : Portfolio) (o : Order) (cp : Option ℚ) (rp : ℚ),
      o.side = OrderSide.buy → reference_price o.price cp = some rp →
      (validate_order port o cp = some true ↔ o.quantity * rp ≤ port.cash)) ∧
    (∀ (port : Portfolio) (o : Order) (cp : Option ℚ),
      o.side = OrderSide.sell →
      (validate_order port o cp = some true ↔
        ∃ pos, port.getPos o.symbol = some pos ∧ o.quantity ≤ pos.quantity)) ∧
    (∀ (port : Portfolio) (oid s : String) (side : OrderSide) (q : ℚ)
        (ot : OrderType) (p sp cp : Option ℚ),
      validate_order port (mkOrder oid s side ot q p sp) cp = some false →
      place_order port oid s side q ot p sp cp = some (port, oid)) := by
  refine ⟨?_, ?_, ?_⟩
  · intro port o cp rp hside href
    simp [validate_order, hside, href]
  · intro port o cp hside
    simp only [validate_order, hside]
    cases hpos : port.getPos o.symbol with
    | none => simp [hpos]
    | some pos => simp [hpos]
  · intro port oid s side q ot p sp cp h
    exact place_order_rejected port oid s side q ot p sp cp h

/-- Witness for C5 amended at concrete inputs: a BUY of 5 at limit 100
against 500 cash is rejected exactly because the notional exceeds cash; a
SELL of 3 against a 5-share position is accepted; a SELL with no position
is rejected and leaves the portfolio unchanged. -/
theorem C5_witness :
    (validate_order { cash := 500 }
        (mkOrder "y1" "AAPL" OrderSide.buy OrderType.market 5 (some 100) none) none =
        some true ↔ (5 : ℚ) * 100 ≤ 500) ∧
    (validate_order
        { cash := 500,
          positions := [("MSFT", { symbol := "MSFT", quantity := 5, avg_price := 50 })] }
        (mkOrder "y2" "MSFT" OrderSide.sell OrderType.market 3 none none) none =
        some true ↔
      ∃ pos, Portfolio.getPos
          { cash := 500,
            positions := [("MSFT", { symbol := "MSFT", quantity := 5, avg_price := 50 })] }
          "MSFT" = some pos ∧ (3 : ℚ) ≤ pos.quantity) ∧
    place_order { cash := 500 } "y3" "TSLA" OrderSide.sell 1 OrderType.market none none
      (some 10) = some ({ cash := 500 }, "y3") := by
  refine ⟨?_, ?_, ?_⟩
  · exact C5_amended_validation.1 { cash := 500 }
      (mkOrder "y1" "AAPL" OrderSide.buy OrderType.market 5 (some 100) none) none 100
      rfl (by norm_num [mkOrder, reference_price])
  · exact C5_amended_validation.2.1
      { cash := 500,
        positions := [("MSFT", { symbol := "MSFT", quantity := 5, avg_price := 50 })] }
      (mkOrder "y2" "MSFT" OrderSide.sell OrderType.market 3 none none) none rfl
  · exact C5_amended_validation.2.2 { cash := 500 } "y3" "TSLA" OrderSide.sell 1
      OrderType.market none none (some 10)
      (by simp [validate_order, mkOrder, Portfolio.getPos, lookupPos])

lemma cancel_orders_list_spec (oid : String) (l : List Order) :
    List.Forall₂ (fun o o1 => o1 = o ∨
      (o.id = oid ∧ o.status = OrderStatus.pending ∧
        o1 = { o with status := OrderStatus.cancelled }))
      l (cancel_orders_list l oid).1 ∧
    ((cancel_orders_list l oid).2 = false → (cancel_orders_list l oid).1 = l) := by
  induction l with
  | nil =>
    constructor
    · simp [cancel_orders_list]
    · intro _; rfl
  | cons o rest ih =>
    by_cases hc : o.id = oid ∧ o.status = OrderStatus.pending
    · constructor
      · simp only [cancel_orders_list, if_pos hc]
        exact List.Forall₂.cons (Or.inr ⟨hc.1, hc.2, rfl⟩)
          (List.forall₂_same.mpr (fun x _ => Or.inl rfl))
      · simp only [cancel_orders_list, if_pos hc]
        intro h
        exact absurd h (by simp)
    · constructor
      · simp only [cancel_orders_list, if_neg hc]
        exact List.Forall₂.cons (Or.inl rfl) ih.1
      · simp only [cancel_orders_list, if_neg hc]
        intro h
        rw [ih.2 h]

/-- C9 counterexample: cancelling a FILLED order does not fail loudly with
an error; `cancel_order` silently returns `false` and leaves the
portfolio, and the order, exactly as they were. -/
theorem C9_counterexample :
    cancel_order
      { orders := [{ mkOrder "f1" "AAPL" OrderSide.buy OrderType.market 1 none none with
                     status := OrderStatus.filled }] } "f1" =
      ({ orders := [{ mkOrder "f1" "AAPL" OrderSide.buy OrderType.market 1 none none with
                      status := OrderStatus.filled }] }, false) := by
  simp [cancel_order, cancel_orders_list, mkOrder]

/-- C9 amended: order status only moves PENDING to one of FILLED, CANCELLED
or REJECTED.  `cancel_order` changes at most one order, and only from
PENDING to CANCELLED; every other order (including any terminal one) is
returned unmodified, and when nothing was cancelled the call returns
`false` with the portfolio unchanged — a silent no-op, not a loud error.
`_execute_order` only ever produces a FILLED or REJECTED order. -/
theorem C9_amended_terminal_orders :
    (∀ (port : Portfolio) (oid : String),
      List.Forall₂ (fun o o1 => o1 = o ∨
          (o.id = oid ∧ o.status = OrderStatus.pending ∧
            o1 = { o with status := OrderStatus.cancelled }))
        port.orders (cancel_order port oid).1.orders ∧
      (cancel_order port oid).1.cash = port.cash ∧
      (cancel_order port oid).1.positions = port.positions ∧
      (cancel_order port oid).1.transaction_history = port.transaction_history ∧
      ((cancel_order port oid).2 = false → (cancel_order port oid).1 = port)) ∧
    (∀ (port : Portfolio) (o : Order) (cp : Option ℚ),
      (execute_order port o cp).2.status = OrderStatus.filled ∨
      (execute_order port o cp).2.status = OrderStatus.rejected) := by
  constructor
  · intro port oid
    refine ⟨(cancel_orders_list_spec oid port.orders).1, rfl, rfl, rfl, ?_⟩
    intro h
    have := (cancel_orders_list_spec oid port.orders).2 h
    simp [cancel_order, this]
  · intro port o cp
    cases cp with
    | none => right; rfl
    | some c =>
      by_cases hc : c = 0
      · right; simp [execute_order, hc]
      · left; simp [execute_order, hc]

/-- Witness for C9 amended: a lookup that cancels nothing (no order has the
id) returns `false` and the portfolio unchanged, and executing an order
with no available price yields a REJECTED status. -/
theorem C9_witness :
    List.Forall₂ (fun o o1 => o1 = o ∨
        (o.id = "w9" ∧ o.status = OrderStatus.pending ∧
          o1 = { o with status := OrderStatus.cancelled }))
      (Portfolio.orders {}) (cancel_order {} "w9").1.orders ∧
    (cancel_order {} "w9").1 = {} ∧
    ((execute_order { cash := 500 }
        (mkOrder "w9b" "AAPL" OrderSide.buy OrderType.market 1 none none) none).2.status =
        OrderStatus.filled ∨
      (execute_order { cash := 500 }
        (mkOrder "w9b" "AAPL" OrderSide.buy OrderType.market 1 none none) none).2.status =
        OrderStatus.rejected) := by
  refine ⟨(C9_amended_terminal_orders.1 {} "w9").1,
    (C9_amended_terminal_orders.1 {} "w9").2.2.2.2
      (by simp [cancel_order, cancel_orders_list]),
    C9_amended_terminal_orders.2 { cash := 500 }
      (mkOrder "w9b" "AAPL" OrderSide.buy OrderType.market 1 none none) none⟩

/-- C10 counterexample: a SELL market order that passes validation but
finds no market price at execution is appended to `portfolio.orders` and
marked REJECTED there, so `get_orders` lists a REJECTED order — the
rejection does leave a queryable record in this path. -/
theorem C10_counterexample :
    ((place_order
        { cash := 500,
          positions := [("AAPL", { symbol := "AAPL", quantity := 5, avg_price := 50 })] }
        "r1" "AAPL" OrderSide.sell 5 OrderType.market none none none).map
      (fun r => get_orders r.1 none (some OrderStatus.rejected))) =
      some [{ mkOrder "r1" "AAPL" OrderSide.sell OrderType.market 5 none none with
              status := OrderStatus.rejected }] := by
  simp [place_order, mkOrder, validate_order, Portfolio.getPos, lookupPos,
    execute_order, get_orders]
  try norm_num

/-- C10 amended: an order that fails validation returns a freshly generated
id, is never appended to `portfolio.orders`, and (the id being fresh)
`get_order` on the returned id finds nothing — the portfolio is returned
unchanged, so the validation rejection leaves no queryable record.
(However an order rejected at execution for lack of a price is appended
and queryable, per the counterexample.) -/
theorem C10_amended_rejects_leave_no_record :
    ∀ (port : Portfolio) (oid s : String) (side : OrderSide) (q : ℚ)
      (ot : OrderType) (p sp cp : Option ℚ),
      validate_order port (mkOrder oid s side ot q p sp) cp = some false →
      (∀ o ∈ port.orders, o.id ≠ oid) →
      place_order port oid s side q ot p sp cp = some (port, oid) ∧
      get_order port oid = none := by
  intro port oid s side q ot p sp cp hval hfresh
  refine ⟨place_order_rejected port oid s side q ot p sp cp hval, ?_⟩
  rw [get_order, List.find?_eq_none]
  intro o ho
  simpa using hfresh o ho

/-- Witness for C10 amended: a SELL with no open position fails validation;
the call returns the id, the portfolio is unchanged, and the id is not
queryable. -/
theorem C10_witness :
    place_order { cash := 500 } "w10" "AAPL" OrderSide.sell 1 OrderType.market none none
      (some 10) = some ({ cash := 500 }, "w10") ∧
    get_order { cash := 500 } "w10" = none := by
  exact C10_amended_rejects_leave_no_record { cash := 500 } "w10" "AAPL" OrderSide.sell 1
    OrderType.market none none (some 10)
    (by simp [validate_order, mkOrder, Portfolio.getPos, lookupPos])
    (by intro o ho; simp at ho)

/-- C6: missing price with a present analyst target crashes the scorer.
With `price` absent (default 0) and `targetMeanPrice = 10`, the analyst
branch is taken and `target_price/current_price` raises ZeroDivisionError
(modelled `none`), which propagates out of the whole scoring call. -/
theorem C6_missing_price_division_crash :
    fundamental_confidence { info := some { targetMeanPrice := some 10 } } = none ∧
    calculate_confidence_score "AAPL" { info := some { targetMeanPrice := some 10 } } =
      none := by
  constructor
  · simp [fundamental_confidence]
    try norm_num
  · simp [calculate_confidence_score, fundamental_confidence]
    try norm_num

/-- C7: position sizing is a pure function of confidence score, account
size and risk fraction: base risk is `account_size * risk_per_trade`, the
multiplier is the step function 1.5/1.0/0.5/0.25 over the fixed level
thresholds and never exceeds 1.5, adjusted risk multiplies them, and the
maximum position percent is `adjusted/account*100`; Scenario A
(10000, 0.02, confidence 90) gives adjusted risk 300 and 3 percent. -/
theorem C7_position_sizing :
    (∀ (confidence_score account_size risk_per_trade : ℚ),
      (get_position_sizing_recommendation confidence_score account_size
          risk_per_trade).base_risk = account_size * risk_per_trade ∧
      (get_position_sizing_recommendation confidence_score account_size
          risk_per_trade).multiplier =
        (if confidence_score ≥ 85 then 3 / 2 else if confidence_score ≥ 70 then 1
         else if confidence_score ≥ 50 then 1 / 2 else 1 / 4) ∧
      (get_position_sizing_recommendation confidence_score account_size
          risk_per_trade).multiplier ≤ 3 / 2 ∧
      (get_position_sizing_recommendation confidence_score account_size
          risk_per_trade).adjusted_risk =
        account_size * risk_per_trade *
          (get_position_sizing_recommendation confidence_score account_size
            risk_per_trade).multiplier ∧
      (get_position_sizing_recommendation confidence_score account_size
          risk_per_trade).max_position_percent =
        (get_position_sizing_recommendation confidence_score account_size
          risk_per_trade).adjusted_risk / account_size * 100) ∧
    (get_position_sizing_recommendation 90 10000 (2 / 100)).adjusted_risk = 300 ∧
    (get_position_sizing_recommendation 90 10000 (2 / 100)).max_position_percent = 3 := by
  refine ⟨?_, ?_, ?_⟩
  · intro confidence_score account_size risk_per_trade
    refine ⟨rfl, rfl, ?_, rfl, rfl⟩
    simp only [get_position_sizing_recommendation]
    split_ifs <;> norm_num
  · norm_num [get_position_sizing_recommendation]
  · norm_num [get_position_sizing_recommendation]

lemma ite_nonneg_q {c : Prop} [Decidable c] {x : ℚ} (hx : 0 ≤ x) :
    0 ≤ (if c then x else 0) := by
  split_ifs <;> simp [hx]

lemma ite_ite_nonneg_q {c1 c2 : Prop} [Decidable c1] [Decidable c2] {x y : ℚ}
    (hx : 0 ≤ x) (hy : 0 ≤ y) : 0 ≤ (if c1 then x else if c2 then y else 0) := by
  split_ifs <;> simp [hx, hy]

lemma technical_confidence_bounds (a : Analysis) :
    0 ≤ technical_confidence a ∧ technical_confidence a ≤ 100 := by
  have key : ∀ x1 x2 x3 x4 x5 x6 : ℚ, 0 ≤ x1 → 0 ≤ x2 → 0 ≤ x3 → 0 ≤ x4 → 0 ≤ x5 →
      0 ≤ x6 →
      0 ≤ min (x1 + x2 + x3 + x4 + x5 + x6) 100 ∧
        min (x1 + x2 + x3 + x4 + x5 + x6) 100 ≤ 100 :=
    fun x1 x2 x3 x4 x5 x6 h1 h2 h3 h4 h5 h6 =>
      ⟨le_min (by linarith) (by norm_num), min_le_right _ _⟩
  simp only [technical_confidence]
  exact key _ _ _ _ _ _
    (ite_ite_nonneg_q (by norm_num) (by norm_num))
    (ite_ite_nonneg_q (by norm_num) (by norm_num))
    (ite_ite_nonneg_q (by norm_num) (by norm_num))
    (ite_nonneg_q (by norm_num))
    (ite_nonneg_q (by norm_num))
    (ite_nonneg_q (by norm_num))

lemma fundamental_confidence_shape (a : Analysis) :
    fundamental_confidence a = none ∨
    ∃ X : ℚ, 0 ≤ X ∧ fundamental_confidence a = some (min X 100) := by
  simp only [fundamental_confidence]
  split_ifs <;> first
    | (left; rfl)
    | (right; exact ⟨_, by norm_num, rfl⟩)

lemma fundamental_confidence_bounds {a : Analysis} {f : ℚ}
    (h : fundamental_confidence a = some f) : 0 ≤ f ∧ f ≤ 100 := by
  rcases fundamental_confidence_shape a with hn | ⟨X, hX, hs⟩
  · rw [hn] at h
    exact absurd h (by simp)
  · rw [hs, Option.some.injEq] at h
    subst h
    exact ⟨le_min hX (by norm_num), min_le_right _ _⟩

lemma sentiment_confidence_bounds (a : Analysis) :
    0 ≤ sentiment_confidence a ∧ sentiment_confidence a ≤ 100 := by
  simp only [sentiment_confidence]
  exact ⟨le_max_left 0 _, max_le (by norm_num) (min_le_right _ _)⟩

lemma trend_alignment_bounds (ticker : String) (a : Analysis) :
    0 ≤ trend_alignment ticker a ∧ trend_alignment ticker a ≤ 100 := by
  have key : ∀ x1 x2 x3 : ℚ, 0 ≤ x1 → 0 ≤ x2 → 0 ≤ x3 →
      0 ≤ min (x1 + x2 + x3) 100 ∧ min (x1 + x2 + x3) 100 ≤ 100 :=
    fun x1 x2 x3 h1 h2 h3 => ⟨le_min (by linarith) (by norm_num), min_le_right _ _⟩
  simp only [trend_alignment]
  exact key _ _ _
    (ite_nonneg_q (add_nonneg (by norm_num) (ite_nonneg_q (by norm_num))))
    (ite_nonneg_q (by norm_num))
    (ite_ite_nonneg_q (by norm_num) (by norm_num))

lemma round1_bounds {x : ℚ} (h0 : 0 ≤ x) (h1 : x ≤ 100) :
    0 ≤ round1 x ∧ round1 x ≤ 100 := by
  have hlow : (0 : ℤ) ≤ round (x * 10) := by
    rw [round_eq]
    calc (0 : ℤ) = ⌊(0 : ℚ)⌋ := by norm_num
      _ ≤ ⌊x * 10 + 1 / 2⌋ := Int.floor_le_floor (by linarith)
  have hfloor : (⌊(1000 : ℚ) + 1 / 2⌋ : ℤ) = 1000 := by
    rw [Int.floor_eq_iff]
    constructor <;> norm_num
  have hhigh : round (x * 10) ≤ 1000 := by
    rw [round_eq]
    calc ⌊x * 10 + 1 / 2⌋ ≤ ⌊(1000 : ℚ) + 1 / 2⌋ := Int.floor_le_floor (by linarith)
      _ = 1000 := hfloor
  unfold round1
  constructor
  · apply div_nonneg _ (by norm_num)
    exact_mod_cast hlow
  · rw [div_le_iff₀ (by norm_num : (0 : ℚ) < 10)]
    calc ((round (x * 10) : ℤ) : ℚ) ≤ ((1000 : ℤ) : ℚ) := by exact_mod_cast hhigh
      _ = 100 * 10 := by norm_num

/-- C8: whenever the scorer returns a result, each of the four component
scores and the reported total score lie in [0, 100]. -/
theorem C8_score_bounds (ticker : String) (a : Analysis) (r : ConfidenceResult)
    (h : calculate_confidence_score ticker a = some r) :
    (0 ≤ r.technical ∧ r.technical ≤ 100) ∧
    (0 ≤ r.fundamental ∧ r.fundamental ≤ 100) ∧
    (0 ≤ r.sentiment ∧ r.sentiment ≤ 100) ∧
    (0 ≤ r.trend ∧ r.trend ≤ 100) ∧
    (0 ≤ r.total_score ∧ r.total_score ≤ 100) := by
  unfold calculate_confidence_score at h
  cases hf : fundamental_confidence a with
  | none =>
    rw [hf] at h
    exact absurd h (by simp)
  | some f =>
    rw [hf] at h
    simp only [Option.some.injEq] at h
    subst h
    obtain ⟨ht0, ht1⟩ := technical_confidence_bounds a
    obtain ⟨hf0, hf1⟩ := fundamental_confidence_bounds hf
    obtain ⟨hs0, hs1⟩ := sentiment_confidence_bounds a
    obtain ⟨htr0, htr1⟩ := trend_alignment_bounds ticker a
    have hraw0 : 0 ≤ technical_confidence a * (40 / 100) + f * (20 / 100) +
        sentiment_confidence a * (20 / 100) + trend_alignment ticker a * (20 / 100) := by
      have p1 := mul_nonneg ht0 (by norm_num : (0:ℚ) ≤ 40 / 100)
      have p2 := mul_nonneg hf0 (by norm_num : (0:ℚ) ≤ 20 / 100)
      have p3 := mul_nonneg hs0 (by norm_num : (0:ℚ) ≤ 20 / 100)
      have p4 := mul_nonneg htr0 (by norm_num : (0:ℚ) ≤ 20 / 100)
      linarith
    have hraw1 : technical_confidence a * (40 / 100) + f * (20 / 100) +
        sentiment_confidence a * (20 / 100) + trend_alignment ticker a * (20 / 100) ≤ 100 := by
      have p1 := mul_le_mul_of_nonneg_right ht1 (by norm_num : (0:ℚ) ≤ 40 / 100)
      have p2 := mul_le_mul_of_nonneg_right hf1 (by norm_num : (0:ℚ) ≤ 20 / 100)
      have p3 := mul_le_mul_of_nonneg_right hs1 (by norm_num : (0:ℚ) ≤ 20 / 100)
      have p4 := mul_le_mul_of_nonneg_right htr1 (by norm_num : (0:ℚ) ≤ 20 / 100)
      linarith
    exact ⟨⟨ht0, ht1⟩, ⟨hf0, hf1⟩, ⟨hs0, hs1⟩, ⟨htr0, htr1⟩, round1_bounds hraw0 hraw1⟩

/-- Witness for C8: the scorer returns a result for ticker ZZZZ on an
empty analysis record, and all its scores are within bounds. -/
theorem C8_witness :
    (0 ≤ ConfidenceResult.technical
        { total_score := 26, confidence_level := "LOW", technical := 15,
          fundamental := 50, sentiment := 50, trend := 0 } ∧
      ConfidenceResult.technical
        { total_score := 26, confidence_level := "LOW", technical := 15,
          fundamental := 50, sentiment := 50, trend := 0 } ≤ 100) ∧
    (0 ≤ ConfidenceResult.fundamental
        { total_score := 26, confidence_level := "LOW", technical := 15,
          fundamental := 50, sentiment := 50, trend := 0 } ∧
      ConfidenceResult.fundamental
        { total_score := 26, confidence_level := "LOW", technical := 15,
          fundamental := 50, sentiment := 50, trend := 0 } ≤ 100) ∧
    (0 ≤ ConfidenceResult.sentiment
        { total_score := 26, confidence_level := "LOW", technical := 15,
          fundamental := 50, sentiment := 50, trend := 0 } ∧
      ConfidenceResult.sentiment
        { total_score := 26, confidence_level := "LOW", technical := 15,
          fundamental := 50, sentiment := 50, trend := 0 } ≤ 100) ∧
    (0 ≤ ConfidenceResult.trend
        { total_score := 26, confidence_level := "LOW", technical := 15,
          fundamental := 50, sentiment := 50, trend := 0 } ∧
      ConfidenceResult.trend
        { total_score := 26, confidence_level := "LOW", technical := 15,
          fundamental := 50, sentiment := 50, trend := 0 } ≤ 100) ∧
    (0 ≤ ConfidenceResult.total_score
        { total_score := 26, confidence_level := "LOW", technical := 15,
          fundamental := 50, sentiment := 50, trend := 0 } ∧
      ConfidenceResult.total_score
        { total_score := 26, confidence_level := "LOW", technical := 15,
          fundamental := 50, sentiment := 50, trend := 0 } ≤ 100) := by
  apply C8_score_bounds "ZZZZ" {}
  have hlen : (List.filter (fun p => decide (pyUpper "ZZZZ" ∈ p.2)) future_trends).length = 0 := by
    decide
  simp [calculate_confidence_score, technical_confidence, fundamental_confidence,
    sentiment_confidence, trend_alignment, confidence_level, round1, hlen]
  norm_num [round_eq]

/-- C4: the total is the weighted sum technical*0.40 + fundamental*0.20 +
sentiment*0.20 + trend*0.20 (weights summing to 1), the confidence level
is computed from the unrounded total by the fixed thresholds 85/70/50, and
only the reported total_score is rounded to one decimal. -/
theorem C4_weighted_aggregation (ticker : String) (a : Analysis) (r : ConfidenceResult)
    (h : calculate_confidence_score ticker a = some r) :
    ∃ f, fundamental_confidence a = some f ∧
      r.total_score = round1 (technical_confidence a * (40 / 100) + f * (20 / 100) +
        sentiment_confidence a * (20 / 100) + trend_alignment ticker a * (20 / 100)) ∧
      r.confidence_level = confidence_level (technical_confidence a * (40 / 100) +
        f * (20 / 100) + sentiment_confidence a * (20 / 100) +
        trend_alignment ticker a * (20 / 100)) ∧
      (∀ x : ℚ, confidence_level x =
        if x ≥ 85 then "ULTRA HIGH" else if x ≥ 70 then "HIGH"
        else if x ≥ 50 then "MEDIUM" else "LOW") ∧
      ((40 : ℚ) / 100 + 20 / 100 + 20 / 100 + 20 / 100) = 1 := by
  unfold calculate_confidence_score at h
  cases hf : fundamental_confidence a with
  | none =>
    rw [hf] at h
    exact absurd h (by simp)
  | some f =>
    rw [hf] at h
    simp only [Option.some.injEq] at h
    subst h
    exact ⟨f, rfl, rfl, rfl, fun x => rfl, by norm_num⟩

/-- Witness for C4: for ticker NVDA on an empty analysis record the scorer
returns technical 15, fundamental 50, sentiment 50, trend 60, so the
characterisation holds at total 38 and level LOW. -/
theorem C4_witness :
    ∃ f, fundamental_confidence {} = some f ∧
      ConfidenceResult.total_score
          { total_score := 38, confidence_level := "LOW", technical := 15,
            fundamental := 50, sentiment := 50, trend := 60 } =
        round1 (technical_confidence {} * (40 / 100) + f * (20 / 100) +
          sentiment_confidence {} * (20 / 100) + trend_alignment "NVDA" {} * (20 / 100)) ∧
      ConfidenceResult.confidence_level
          { total_score := 38, confidence_level := "LOW", technical := 15,
            fundamental := 50, sentiment := 50, trend := 60 } =
        confidence_level (technical_confidence {} * (40 / 100) + f * (20 / 100) +
          sentiment_confidence {} * (20 / 100) + trend_alignment "NVDA" {} * (20 / 100)) ∧
      (∀ x : ℚ, confidence_level x =
        if x ≥ 85 then "ULTRA HIGH" else if x ≥ 70 then "HIGH"
        else if x ≥ 50 then "MEDIUM" else "LOW") ∧
      ((40 : ℚ) / 100 + 20 / 100 + 20 / 100 + 20 / 100) = 1 := by
  apply C4_weighted_aggregation "NVDA" {}
  have hlen : (List.filter (fun p => decide (pyUpper "NVDA" ∈ p.2)) future_trends).length = 2 := by
    decide
  simp [calculate_confidence_score, technical_confidence, fundamental_confidence,
    sentiment_confidence, trend_alignment, confidence_level, round1, hlen]
  norm_num [round_eq]
